import Mathlib

/-!
Verification of the trip subsystem (`src/game/transport/pathfinding/trip/mod.rs`)
of the citybound traffic simulation.

The Rust code is a set of message-passing actor handlers (kay framework).
We embed each handler as a pure function from the actor's state and the
message's arguments to the updated state together with the list of outbound
effects (messages sent to the world), in the order the source emits them.
Identifiers (`RoughLocationID`, `TripID`, `LaneID`, listener ids, `Instant`)
are opaque in the source and are modelled as `Nat`.  The `f32` fields
(`offset`, `position`, `velocity`, `max_velocity`, `acceleration`) are only
constructed and copied, never computed with, so they are modelled as `ℚ`.
-/

/-- `PreciseLocation` from the pathfinding module: a network attachment,
`{ node, offset }`. -/
structure PreciseLocation where
  node : Nat
  offset : ℚ
deriving DecidableEq, Repr

/-- `Obstacle` from `microtraffic`: position, velocity and velocity cap of a
car on a lane. -/
structure Obstacle where
  position : ℚ
  velocity : ℚ
  max_velocity : ℚ
deriving DecidableEq, Repr

/-- `LaneCar` from `microtraffic`: the traveler descriptor passed to
`add_car`. -/
structure LaneCar where
  trip : Nat
  as_obstacle : Obstacle
  acceleration : ℚ
  destination : PreciseLocation
  next_hop_interaction : Option Nat
deriving DecidableEq, Repr

/-- `TripFate`: the closed set of terminal classifications of a trip. -/
inductive TripFate where
  | Success (terminal_instant : Nat)
  | SourceOrDestinationNotResolvable
  | NoRoute
  | RouteForgotten
  | HopDisconnected
  | LaneUnbuilt
  | ForceStopped
deriving DecidableEq, Repr

/-- `TripResult`: delivered exactly once per trip at termination. -/
structure TripResult where
  location_now : Option Nat
  fate : TripFate
deriving DecidableEq, Repr

/-- `Trip`: per-journey actor state. -/
structure Trip where
  id : Nat
  rough_source : Nat
  rough_destination : Nat
  source : Option PreciseLocation
  destination : Option PreciseLocation
  listener : Option Nat
deriving DecidableEq, Repr

/-- kay's `Fate`, returned by an actor handler: keep the actor alive or
destroy it. -/
inductive Fate where
  | Live
  | Die
deriving DecidableEq, Repr

/-- One outbound effect of a handler: a message sent into the world, in
source order.  Each constructor corresponds to one call site in the Rust
file. -/
inductive Effect where
  | resolve_as_location (requester : Nat) (rough_location : Nat) (instant : Nat)
  | trip_created (listener : Nat) (trip : Nat)
  | add_car (lane : Nat) (car : LaneCar) (next_hop_override : Option Nat) (instant : Nat)
  | log_trip_failed (trip : Nat) (fate : TripFate) (rough_source : Nat)
      (source : Option PreciseLocation) (rough_destination : Nat)
      (destination : Option PreciseLocation)
  | spawn_failed_trip_debugger (rough_source : Nat) (rough_destination : Nat)
  | log_unresolvable (rough_location : Nat)
  | finish_self (trip : Nat) (result : TripResult)
  | trip_result (listener : Nat) (trip : Nat) (result : TripResult)
      (rough_source : Nat) (rough_destination : Nat)
  | wake_up_in (ticks : Nat) (target : Nat)
  | spawn_trip (rough_source : Nat) (rough_destination : Nat)
      (listener : Option Nat) (instant : Nat)
deriving DecidableEq, Repr

/-- `const DEBUG_FAILED_TRIPS_VISUALLY: bool = false;` -/
def DEBUG_FAILED_TRIPS_VISUALLY : Bool := false

/-- `Trip::spawn`: requests resolution of the rough source (with the trip
itself as requester), notifies the listener of creation when present, and
returns the initial state with both precise endpoints unset. -/
def Trip.spawn (id rough_source rough_destination : Nat) (listener : Option Nat)
    (instant : Nat) : Trip × List Effect :=
  ({ id, rough_source, rough_destination,
     source := none, destination := none, listener },
   Effect.resolve_as_location id rough_source instant ::
     (match listener with
      | some l => [Effect.trip_created l id]
      | none => []))

/-- The fates `finish` treats silently: `Success(_) | ForceStopped`; every
other fate is logged as a failure. -/
def TripFate.is_failure : TripFate → Bool
  | TripFate.Success _ => false
  | TripFate.ForceStopped => false
  | _ => true

/-- `Trip::finish`: logs a diagnostic record (and, behind the disabled debug
flag, spawns the visual debugger) for any failure fate, forwards the result
to the listener when present, and returns `Fate::Die`. -/
def Trip.finish (self : Trip) (result : TripResult) : List Effect × Fate :=
  ((if result.fate.is_failure then
      Effect.log_trip_failed self.id result.fate self.rough_source self.source
          self.rough_destination self.destination ::
        (if DEBUG_FAILED_TRIPS_VISUALLY then
          [Effect.spawn_failed_trip_debugger self.rough_source self.rough_destination]
        else [])
    else []) ++
   (match self.listener with
    | some l =>
        [Effect.trip_result l self.id result self.rough_source self.rough_destination]
    | none => []),
   Fate.Die)

/-- The `if let (Some(source), Some(destination))` block at the end of the
successful branch of `location_resolved`: once both endpoints are populated,
request insertion of a `LaneCar` on the lane reinterpreted from the source's
node, positioned at the source offset, with zero velocity and acceleration,
velocity cap `8.0`, carrying the destination, and no committed next hop. -/
def Trip.insertion_effects (self : Trip) (instant : Nat) : List Effect :=
  match self.source, self.destination with
  | some source, some destination =>
      [Effect.add_car source.node
        { trip := self.id,
          as_obstacle :=
            { position := source.offset, velocity := 0, max_velocity := 8 },
          acceleration := 0,
          destination,
          next_hop_interaction := none }
        none instant]
  | _, _ => []

/-- `Trip::location_resolved` (`impl LocationRequester for Trip`).  On a
successful resolution matching the rough source: record it, and either also
record the destination (when the two rough endpoints coincide) or request
resolution of the rough destination; matching the rough destination records
it; matching neither is the `unreachable!()` panic, modelled as `none`.
Afterwards, the shared insertion block runs.  On an absent resolution: log,
and send `finish` to itself with fate `SourceOrDestinationNotResolvable` and
`location_now = Some(rough_source)`. -/
def Trip.location_resolved (self : Trip) (rough_location : Nat)
    (location : Option PreciseLocation) (instant : Nat) :
    Option (Trip × List Effect) :=
  match location with
  | some precise =>
    if rough_location = self.rough_source then
      if self.rough_source = self.rough_destination then
        let s := { self with source := some precise, destination := some precise }
        some (s, s.insertion_effects instant)
      else
        let s := { self with source := some precise }
        some (s, Effect.resolve_as_location s.id s.rough_destination instant ::
          s.insertion_effects instant)
    else if rough_location = self.rough_destination then
      let s := { self with destination := some precise }
      some (s, s.insertion_effects instant)
    else
      none
  | none =>
    some (self,
      [Effect.log_unresolvable rough_location,
       Effect.finish_self self.id
         { location_now := some self.rough_source,
           fate := TripFate.SourceOrDestinationNotResolvable }])

/-- `TripCreator`: the batching scheduler singleton. -/
structure TripCreator where
  id : Nat
  simulation : Nat
  lanes : List Nat
deriving DecidableEq, Repr

/-- `TripCreator::add_lane_for_trip`: push the lane onto the pending
collection, and schedule a wake-up in 50 ticks when the count after the push
exceeds 1. -/
def TripCreator.add_lane_for_trip (self : TripCreator) (lane_id : Nat) :
    TripCreator × List Effect :=
  let s := { self with lanes := self.lanes ++ [lane_id] }
  (s, if s.lanes.length > 1 then [Effect.wake_up_in 50 s.id] else [])

/-- `.chunks(2)` restricted to complete pairs, as consumed by
`TripCreator::wake`: consecutive pairs of the list, discarding an unpaired
tail element. -/
def chunkPairs {α : Type} : List α → List (α × α)
  | a :: b :: rest => (a, b) :: chunkPairs rest
  | _ => []

/-- `TripCreator::wake` (`impl Sleeper for TripCreator`).  The in-place
`thread_rng().shuffle` is nondeterministic, so the shuffled order is passed
as an explicit argument `shuffled`; theorems quantify it over all
permutations of the pending collection.  Each complete consecutive pair
spawns a trip (first element rough source, second rough destination, no
listener), and the pending collection is replaced by an empty one. -/
def TripCreator.wake (self : TripCreator) (shuffled : List Nat)
    (current_instant : Nat) : TripCreator × List Effect :=
  ({ self with lanes := [] },
   (chunkPairs shuffled).map
     (fun p => Effect.spawn_trip p.1 p.2 none current_instant))

/-- Recognizes a location-resolution request effect. -/
def Effect.is_resolve : Effect → Bool
  | Effect.resolve_as_location .. => true
  | _ => false

/-- Recognizes a traveler-insertion request effect. -/
def Effect.is_add_car : Effect → Bool
  | Effect.add_car .. => true
  | _ => false

/-- Recognizes a trip-result notification to a listener. -/
def Effect.is_trip_result : Effect → Bool
  | Effect.trip_result .. => true
  | _ => false

/-- Recognizes the trip-failure diagnostic record. -/
def Effect.is_diag : Effect → Bool
  | Effect.log_trip_failed .. => true
  | _ => false

/-- The messages a `Trip` actor can receive. -/
inductive TripMsg where
  | location_resolved (rough_location : Nat) (location : Option PreciseLocation)
      (instant : Nat)
  | finish (result : TripResult)
deriving DecidableEq, Repr

/-- A `Trip` actor together with its liveness. -/
structure TripActor where
  state : Trip
  alive : Bool
deriving DecidableEq, Repr

/-- Modelled from the spec: the kay actor runtime (not under `src/`)
delivers mailbox messages one at a time to a live actor; a handler that
returns `Fate::Die` destroys the actor, and a destroyed actor processes no
further messages; a panic (the `unreachable!()` branch) likewise halts the
actor, emitting nothing. -/
def TripActor.step (a : TripActor) (m : TripMsg) : TripActor × List Effect :=
  if a.alive then
    match m with
    | TripMsg.location_resolved r loc i =>
      match a.state.location_resolved r loc i with
      | some (t, effs) => ({ state := t, alive := true }, effs)
      | none => ({ a with alive := false }, [])
    | TripMsg.finish result =>
      let r := a.state.finish result
      ({ a with alive := match r.2 with | Fate.Live => true | Fate.Die => false },
       r.1)
  else (a, [])

/-- Processing of a whole message sequence by a `Trip` actor, collecting the
emitted effects in order. -/
def TripActor.run (a : TripActor) : List TripMsg → TripActor × List Effect
  | [] => (a, [])
  | m :: ms =>
    let s := a.step m
    let rest := s.1.run ms
    (rest.1, s.2 ++ rest.2)

/-- Two `location_resolved` deliveries in sequence, propagating the panic
case and concatenating effects. -/
def deliverTwo (t : Trip) (r1 : Nat) (l1 : Option PreciseLocation) (i1 : Nat)
    (r2 : Nat) (l2 : Option PreciseLocation) (i2 : Nat) :
    Option (Trip × List Effect) :=
  match t.location_resolved r1 l1 i1 with
  | some (t1, e1) =>
    match t1.location_resolved r2 l2 i2 with
    | some (t2, e2) => some (t2, e1 ++ e2)
    | none => none
  | none => none

/-- C1: delivering an absent resolution to `location_resolved` leaves the
trip state untouched and emits exactly the diagnostic log followed by a
`finish` sent to itself with fate `SourceOrDestinationNotResolvable` and
`location_now = Some(rough_source)` — unconditionally the source, whichever
rough location the response names — with no resolution request and no
traveler-insertion request in that invocation. -/
theorem location_resolved_absent_terminates (t : Trip) (r i : Nat) :
    t.location_resolved r none i =
      some (t,
        [Effect.log_unresolvable r,
         Effect.finish_self t.id
           { location_now := some t.rough_source,
             fate := TripFate.SourceOrDestinationNotResolvable }]) ∧
    ([Effect.log_unresolvable r,
      Effect.finish_self t.id
        { location_now := some t.rough_source,
          fate := TripFate.SourceOrDestinationNotResolvable }].countP
        Effect.is_resolve = 0 ∧
     [Effect.log_unresolvable r,
      Effect.finish_self t.id
        { location_now := some t.rough_source,
          fate := TripFate.SourceOrDestinationNotResolvable }].countP
        Effect.is_add_car = 0) := by
  refine ⟨rfl, ?_, ?_⟩ <;>
    simp [List.countP, List.countP.go, Effect.is_resolve, Effect.is_add_car]

/-- C4: when the two rough endpoints coincide, spawn issues the only
resolution request ever made, and a single successful response matching the
rough source fills both precise endpoints with the same location and issues
the insertion request with no further resolution request. -/
theorem same_endpoints_single_resolution (id rs : Nat) (listener : Option Nat)
    (i1 i2 : Nat) (p : PreciseLocation) :
    (Trip.spawn id rs rs listener i1).2.countP Effect.is_resolve = 1 ∧
    (Trip.spawn id rs rs listener i1).1.location_resolved rs (some p) i2 =
      some ({ (Trip.spawn id rs rs listener i1).1 with
                source := some p, destination := some p },
            [Effect.add_car p.node
              { trip := id,
                as_obstacle :=
                  { position := p.offset, velocity := 0, max_velocity := 8 },
                acceleration := 0, destination := p,
                next_hop_interaction := none }
              none i2]) ∧
    ((Trip.spawn id rs rs listener i1).2 ++
      [Effect.add_car p.node
        { trip := id,
          as_obstacle :=
            { position := p.offset, velocity := 0, max_velocity := 8 },
          acceleration := 0, destination := p,
          next_hop_interaction := none }
        none i2]).countP Effect.is_resolve = 1 := by
  refine ⟨?_, ?_, ?_⟩
  · cases listener <;>
      simp [Trip.spawn, List.countP, List.countP.go, Effect.is_resolve]
  · simp [Trip.spawn, Trip.location_resolved, Trip.insertion_effects]
  · cases listener <;>
      simp [Trip.spawn, List.countP, List.countP.go, Effect.is_resolve,
        Effect.is_add_car]

/-- C6: `finish` always returns `Fate::Die`; the diagnostic record carrying
the trip id, the fate, both rough endpoints and both optional resolved
endpoints is emitted exactly when the fate is neither `Success` nor
`ForceStopped`; and the result is forwarded to a listener exactly when that
listener is registered. -/
theorem finish_diag_listener_die (t : Trip) (result : TripResult) :
    (t.finish result).2 = Fate.Die ∧
    ((Effect.log_trip_failed t.id result.fate t.rough_source t.source
        t.rough_destination t.destination ∈ (t.finish result).1) ↔
      ((∀ i, result.fate ≠ TripFate.Success i) ∧
        result.fate ≠ TripFate.ForceStopped)) ∧
    (∀ l, (Effect.trip_result l t.id result t.rough_source t.rough_destination ∈
        (t.finish result).1) ↔ t.listener = some l) := by
  refine ⟨rfl, ?_, ?_⟩
  · cases hf : result.fate <;> cases hl : t.listener <;>
      simp [Trip.finish, TripFate.is_failure, DEBUG_FAILED_TRIPS_VISUALLY,
        hf, hl]
  · intro l
    cases hf : result.fate <;> cases hl : t.listener <;>
      simp [Trip.finish, TripFate.is_failure, DEBUG_FAILED_TRIPS_VISUALLY,
        hf, hl, eq_comm]

/-- C7: `add_lane_for_trip` appends the lane to the pending collection and
schedules a 50-tick wake-up exactly when the pending count after the append
exceeds 1; in particular the very first add schedules nothing. -/
theorem add_lane_appends_and_schedules (tc : TripCreator) (lane : Nat) :
    (tc.add_lane_for_trip lane).1.lanes = tc.lanes ++ [lane] ∧
    ((Effect.wake_up_in 50 tc.id ∈ (tc.add_lane_for_trip lane).2) ↔
      (tc.lanes ++ [lane]).length > 1) ∧
    (tc.lanes = [] → (tc.add_lane_for_trip lane).2 = []) := by
  refine ⟨rfl, ?_, ?_⟩
  · by_cases h : (tc.lanes ++ [lane]).length > 1 <;>
      simp [TripCreator.add_lane_for_trip, h]
  · intro h
    simp [TripCreator.add_lane_for_trip, h]

/-- C7 witness: the first add to an empty pending collection schedules no
wake-up. -/
theorem add_lane_appends_and_schedules_witness :
    (({ id := 0, simulation := 0, lanes := [] } : TripCreator).add_lane_for_trip
        7).2 = [] :=
  (add_lane_appends_and_schedules { id := 0, simulation := 0, lanes := [] }
    7).2.2 rfl

/-- C9: under the protocol precondition that a successful response names one
of the trip's own rough endpoints, the `unreachable!()` panic branch of
`location_resolved` cannot run; a successful response matching neither
endpoint hits exactly that fatal branch (no trip result is produced). -/
theorem location_resolved_panic_unreachable (t : Trip) (r : Nat)
    (p : PreciseLocation) (i : Nat) :
    (r = t.rough_source ∨ r = t.rough_destination →
      (t.location_resolved r (some p) i).isSome = true) ∧
    (r ≠ t.rough_source → r ≠ t.rough_destination →
      t.location_resolved r (some p) i = none) := by
  constructor
  · rintro (h | h) <;>
      by_cases h2 : t.rough_source = t.rough_destination <;>
      by_cases h3 : r = t.rough_source <;>
      simp_all [Trip.location_resolved]
  · intro h1 h2
    simp [Trip.location_resolved, h1, h2]

/-- C9 witness: for a concrete trip with endpoints 1 and 2, a response
naming 1 succeeds, and a response naming 5 hits the fatal branch. -/
theorem location_resolved_panic_unreachable_witness :
    ((({ id := 0, rough_source := 1, rough_destination := 2, source := none,
          destination := none, listener := none } : Trip).location_resolved 1
        (some { node := 3, offset := 4 }) 0).isSome = true) ∧
    (({ id := 0, rough_source := 1, rough_destination := 2, source := none,
          destination := none, listener := none } : Trip).location_resolved 5
        (some { node := 3, offset := 4 }) 0 = none) :=
  ⟨(location_resolved_panic_unreachable
      { id := 0, rough_source := 1, rough_destination := 2, source := none,
        destination := none, listener := none } 1 { node := 3, offset := 4 }
      0).1 (Or.inl rfl),
   (location_resolved_panic_unreachable
      { id := 0, rough_source := 1, rough_destination := 2, source := none,
        destination := none, listener := none } 5 { node := 3, offset := 4 }
      0).2 (by decide) (by decide)⟩

/-- Any traveler-insertion effect produced by the shared insertion block
carries velocity 0, acceleration 0 and velocity cap 8, and targets the
resolved source node at the source offset, carrying the resolved
destination. -/
theorem insertion_effects_car_shape (s : Trip) (i lane : Nat) (car : LaneCar)
    (nh : Option Nat) (j : Nat)
    (hmem : Effect.add_car lane car nh j ∈ s.insertion_effects i) :
    ∃ src dst, s.source = some src ∧ s.destination = some dst ∧
      lane = src.node ∧ nh = none ∧ j = i ∧
      car = { trip := s.id,
              as_obstacle :=
                { position := src.offset, velocity := 0, max_velocity := 8 },
              acceleration := 0, destination := dst,
              next_hop_interaction := none } := by
  cases hs : s.source <;> cases hd : s.destination <;>
    simp [Trip.insertion_effects, hs, hd] at hmem
  obtain ⟨hl, hc, hn, hj⟩ := hmem
  exact ⟨_, _, rfl, rfl, hl, hn, hj, hc⟩

/-- Inversion of the successful branch of `location_resolved`: the trip id
is unchanged, and the emitted effects are the insertion block of the updated
state, possibly preceded by the resolution request for the rough
destination. -/
theorem location_resolved_some_inv (t : Trip) (r : Nat) (p : PreciseLocation)
    (i : Nat) (t2 : Trip) (effs : List Effect)
    (h : t.location_resolved r (some p) i = some (t2, effs)) :
    t2.id = t.id ∧
    (effs = t2.insertion_effects i ∨
     effs = Effect.resolve_as_location t.id t.rough_destination i ::
       t2.insertion_effects i) := by
  simp only [Trip.location_resolved] at h
  by_cases h1 : r = t.rough_source
  · by_cases h2 : t.rough_source = t.rough_destination
    · rw [if_pos h1, if_pos h2] at h
      simp only [Option.some.injEq, Prod.mk.injEq] at h
      obtain ⟨h3, h4⟩ := h
      subst h3; subst h4
      exact ⟨rfl, Or.inl rfl⟩
    · rw [if_pos h1, if_neg h2] at h
      simp only [Option.some.injEq, Prod.mk.injEq] at h
      obtain ⟨h3, h4⟩ := h
      subst h3; subst h4
      exact ⟨rfl, Or.inr rfl⟩
  · by_cases h2 : r = t.rough_destination
    · rw [if_neg h1, if_pos h2] at h
      simp only [Option.some.injEq, Prod.mk.injEq] at h
      obtain ⟨h3, h4⟩ := h
      subst h3; subst h4
      exact ⟨rfl, Or.inl rfl⟩
    · rw [if_neg h1, if_neg h2] at h
      exact absurd h (by simp)

/-- C10: every traveler-insertion request that `location_resolved` issues
carries `max_velocity = 8.0` (and zero initial velocity and
acceleration). -/
theorem inserted_car_max_velocity (t : Trip) (r : Nat)
    (loc : Option PreciseLocation) (i : Nat) (t2 : Trip) (effs : List Effect)
    (h : t.location_resolved r loc i = some (t2, effs))
    (lane : Nat) (car : LaneCar) (nh : Option Nat) (j : Nat)
    (hmem : Effect.add_car lane car nh j ∈ effs) :
    car.as_obstacle.max_velocity = 8 ∧ car.as_obstacle.velocity = 0 ∧
      car.acceleration = 0 := by
  have hshape : Effect.add_car lane car nh j ∈ t2.insertion_effects i := by
    cases loc with
    | none =>
      simp only [Trip.location_resolved, Option.some.injEq, Prod.mk.injEq] at h
      obtain ⟨h1, h2⟩ := h
      subst h2
      simp at hmem
    | some p =>
      obtain ⟨hid, heffs | heffs⟩ :=
        location_resolved_some_inv t r p i t2 effs h
      · rw [heffs] at hmem
        exact hmem
      · rw [heffs, List.mem_cons] at hmem
        rcases hmem with hres | hins
        · exact absurd hres (by simp)
        · exact hins
  obtain ⟨src, dst, _, _, _, _, _, hc⟩ :=
    insertion_effects_car_shape t2 i lane car nh j hshape
  subst hc
  exact ⟨rfl, rfl, rfl⟩

/-- C10 witness: a concrete trip with coinciding endpoints inserts a car
with velocity cap 8 on the single response. -/
theorem inserted_car_max_velocity_witness :
    ({ trip := 0,
       as_obstacle := { position := 4, velocity := 0, max_velocity := 8 },
       acceleration := 0, destination := { node := 3, offset := 4 },
       next_hop_interaction := none } : LaneCar).as_obstacle.max_velocity = 8 ∧
    ({ trip := 0,
       as_obstacle := { position := 4, velocity := 0, max_velocity := 8 },
       acceleration := 0, destination := { node := 3, offset := 4 },
       next_hop_interaction := none } : LaneCar).as_obstacle.velocity = 0 ∧
    ({ trip := 0,
       as_obstacle := { position := 4, velocity := 0, max_velocity := 8 },
       acceleration := 0, destination := { node := 3, offset := 4 },
       next_hop_interaction := none } : LaneCar).acceleration = 0 :=
  inserted_car_max_velocity
    { id := 0, rough_source := 1, rough_destination := 1, source := none,
      destination := none, listener := none } 1
    (some { node := 3, offset := 4 }) 0
    { id := 0, rough_source := 1, rough_destination := 1,
      source := some { node := 3, offset := 4 },
      destination := some { node := 3, offset := 4 }, listener := none }
    [Effect.add_car 3
      { trip := 0,
        as_obstacle := { position := 4, velocity := 0, max_velocity := 8 },
        acceleration := 0, destination := { node := 3, offset := 4 },
        next_hop_interaction := none }
      none 0]
    (by decide) 3
    { trip := 0,
      as_obstacle := { position := 4, velocity := 0, max_velocity := 8 },
      acceleration := 0, destination := { node := 3, offset := 4 },
      next_hop_interaction := none }
    none 0 (by decide)

/-- C8: in any successful `location_resolved` invocation, exactly one
traveler-insertion request is issued when both endpoints are populated
afterwards — at the resolved source's attachment node, positioned at the
source offset, carrying the resolved destination, with zero velocity and
acceleration and no committed next hop — and none when either endpoint is
still missing. -/
theorem insertion_iff_both_populated (t : Trip) (r : Nat) (p : PreciseLocation)
    (i : Nat) (t2 : Trip) (effs : List Effect)
    (h : t.location_resolved r (some p) i = some (t2, effs)) :
    (∀ src dst, t2.source = some src → t2.destination = some dst →
      effs.countP Effect.is_add_car = 1 ∧
      Effect.add_car src.node
        { trip := t.id,
          as_obstacle :=
            { position := src.offset, velocity := 0, max_velocity := 8 },
          acceleration := 0, destination := dst,
          next_hop_interaction := none }
        none i ∈ effs) ∧
    ((t2.source = none ∨ t2.destination = none) →
      effs.countP Effect.is_add_car = 0) := by
  obtain ⟨hid, heffs | heffs⟩ := location_resolved_some_inv t r p i t2 effs h <;>
    subst heffs <;>
    cases hs : t2.source <;> cases hd : t2.destination <;>
      simp_all [Trip.insertion_effects, List.countP, List.countP.go,
        Effect.is_add_car]

/-- C8 witness: a concrete trip with coinciding endpoints issues exactly the
one insertion request once both endpoints are populated. -/
theorem insertion_iff_both_populated_witness :
    ([Effect.add_car 9
        { trip := 0,
          as_obstacle := { position := 2, velocity := 0, max_velocity := 8 },
          acceleration := 0, destination := { node := 9, offset := 2 },
          next_hop_interaction := none }
        none 0].countP Effect.is_add_car = 1 ∧
     Effect.add_car 9
        { trip := 0,
          as_obstacle := { position := 2, velocity := 0, max_velocity := 8 },
          acceleration := 0, destination := { node := 9, offset := 2 },
          next_hop_interaction := none }
        none 0 ∈
      [Effect.add_car 9
        { trip := 0,
          as_obstacle := { position := 2, velocity := 0, max_velocity := 8 },
          acceleration := 0, destination := { node := 9, offset := 2 },
          next_hop_interaction := none }
        none 0]) :=
  (insertion_iff_both_populated
    { id := 0, rough_source := 1, rough_destination := 1, source := none,
      destination := none, listener := none } 1 { node := 9, offset := 2 } 0
    { id := 0, rough_source := 1, rough_destination := 1,
      source := some { node := 9, offset := 2 },
      destination := some { node := 9, offset := 2 }, listener := none }
    [Effect.add_car 9
      { trip := 0,
        as_obstacle := { position := 2, velocity := 0, max_velocity := 8 },
        acceleration := 0, destination := { node := 9, offset := 2 },
        next_hop_interaction := none }
      none 0]
    (by decide)).1 { node := 9, offset := 2 } { node := 9, offset := 2 } rfl rfl

/-- C2: for a trip with distinct rough endpoints and both precise endpoints
still unset, the two successful resolution responses can be delivered in
either order: both orders produce the same final trip state (source and
destination populated with the respective precise locations) and each order
issues exactly one traveler-insertion request. -/
theorem resolution_order_independent (t : Trip) (p1 p2 : PreciseLocation)
    (i1 i2 : Nat) (hs : t.source = none) (hd : t.destination = none)
    (hne : t.rough_source ≠ t.rough_destination) :
    ∃ e1 e2,
      deliverTwo t t.rough_source (some p1) i1 t.rough_destination (some p2)
          i2 = some ({ t with source := some p1, destination := some p2 }, e1) ∧
      deliverTwo t t.rough_destination (some p2) i2 t.rough_source (some p1)
          i1 = some ({ t with source := some p1, destination := some p2 }, e2) ∧
      e1.countP Effect.is_add_car = 1 ∧ e2.countP Effect.is_add_car = 1 := by
  refine ⟨[Effect.resolve_as_location t.id t.rough_destination i1,
           Effect.add_car p1.node
             { trip := t.id,
               as_obstacle :=
                 { position := p1.offset, velocity := 0, max_velocity := 8 },
               acceleration := 0, destination := p2,
               next_hop_interaction := none }
             none i2],
          [Effect.resolve_as_location t.id t.rough_destination i1,
           Effect.add_car p1.node
             { trip := t.id,
               as_obstacle :=
                 { position := p1.offset, velocity := 0, max_velocity := 8 },
               acceleration := 0, destination := p2,
               next_hop_interaction := none }
             none i1],
          ?_, ?_, ?_, ?_⟩ <;>
    simp [deliverTwo, Trip.location_resolved, Trip.insertion_effects, hs, hd,
      hne, Ne.symm hne, List.countP, List.countP.go, Effect.is_add_car]

/-- C2 witness: concrete trip with endpoints 1 and 2; both delivery orders
agree. -/
theorem resolution_order_independent_witness :
    ∃ e1 e2,
      deliverTwo
          { id := 0, rough_source := 1, rough_destination := 2, source := none,
            destination := none, listener := none } 1
          (some { node := 10, offset := 5 }) 0 2
          (some { node := 20, offset := 1 }) 1 =
        some ({ id := 0, rough_source := 1, rough_destination := 2,
                source := some { node := 10, offset := 5 },
                destination := some { node := 20, offset := 1 },
                listener := none }, e1) ∧
      deliverTwo
          { id := 0, rough_source := 1, rough_destination := 2, source := none,
            destination := none, listener := none } 2
          (some { node := 20, offset := 1 }) 1 1
          (some { node := 10, offset := 5 }) 0 =
        some ({ id := 0, rough_source := 1, rough_destination := 2,
                source := some { node := 10, offset := 5 },
                destination := some { node := 20, offset := 1 },
                listener := none }, e2) ∧
      e1.countP Effect.is_add_car = 1 ∧ e2.countP Effect.is_add_car = 1 :=
  resolution_order_independent
    { id := 0, rough_source := 1, rough_destination := 2, source := none,
      destination := none, listener := none }
    { node := 10, offset := 5 } { node := 20, offset := 1 } 0 1 rfl rfl
    (by decide)

/-- The complete-pairs decomposition has `⌊n/2⌋` pairs. -/
theorem chunkPairs_length {α : Type} :
    ∀ l : List α, (chunkPairs l).length = l.length / 2
  | [] => by simp [chunkPairs]
  | [_] => by simp [chunkPairs]
  | a :: b :: rest => by
      simp [chunkPairs, chunkPairs_length rest]
      omega

/-- The `k`-th complete pair consists of elements `2k` and `2k+1` of the
underlying list. -/
theorem chunkPairs_get {α : Type} :
    ∀ (l : List α) (k : Nat) (a b : α),
      (chunkPairs l).get? k = some (a, b) →
      l.get? (2 * k) = some a ∧ l.get? (2 * k + 1) = some b
  | [], k, a, b => by simp [chunkPairs]
  | [_], k, a, b => by simp [chunkPairs]
  | x :: y :: rest, 0, a, b => by
      simp only [chunkPairs, List.get?_cons_zero, Option.some.injEq,
        Prod.mk.injEq]
      rintro ⟨rfl, rfl⟩
      exact ⟨rfl, rfl⟩
  | x :: y :: rest, (k + 1), a, b => by
      intro h
      have hr := chunkPairs_get rest k a b (by simpa [chunkPairs] using h)
      have e1 : 2 * (k + 1) = (2 * k + 1) + 1 := by omega
      have e2 : 2 * (k + 1) + 1 = ((2 * k + 1) + 1) + 1 := by omega
      constructor
      · rw [e1, List.get?_cons_succ, List.get?_cons_succ]
        exact hr.1
      · rw [e2, List.get?_cons_succ, List.get?_cons_succ]
        exact hr.2

/-- C5: `wake`, run on any shuffled permutation of the pending collection,
leaves the pending collection empty, spawns exactly `⌊n/2⌋` trips, and the
`k`-th spawned trip takes the shuffled elements `2k` and `2k+1` as rough
source and rough destination with no listener (the unpaired tail spawns
nothing). -/
theorem wake_pairs_and_clears (tc : TripCreator) (shuffled : List Nat)
    (i : Nat) (hperm : shuffled.Perm tc.lanes) :
    (tc.wake shuffled i).1.lanes = [] ∧
    (tc.wake shuffled i).2.length = tc.lanes.length / 2 ∧
    (∀ k e, (tc.wake shuffled i).2.get? k = some e →
      ∃ a b, shuffled.get? (2 * k) = some a ∧
        shuffled.get? (2 * k + 1) = some b ∧
        e = Effect.spawn_trip a b none i) := by
  refine ⟨rfl, ?_, ?_⟩
  · simp [TripCreator.wake, chunkPairs_length, hperm.length_eq]
  · intro k e h
    simp only [TripCreator.wake, List.get?_map, Option.map_eq_some'] at h
    obtain ⟨⟨a, b⟩, hab, rfl⟩ := h
    obtain ⟨h1, h2⟩ := chunkPairs_get shuffled k a b hab
    exact ⟨a, b, h1, h2, rfl⟩

/-- C5 witness: waking with three pending lanes spawns one trip and clears
the collection. -/
theorem wake_pairs_and_clears_witness :
    (({ id := 0, simulation := 0, lanes := [1, 2, 3] } : TripCreator).wake
        [3, 1, 2] 0).1.lanes = [] ∧
    (({ id := 0, simulation := 0, lanes := [1, 2, 3] } : TripCreator).wake
        [3, 1, 2] 0).2.length = 1 :=
  ⟨(wake_pairs_and_clears { id := 0, simulation := 0, lanes := [1, 2, 3] }
      [3, 1, 2] 0 (by decide)).1,
   (wake_pairs_and_clears { id := 0, simulation := 0, lanes := [1, 2, 3] }
      [3, 1, 2] 0 (by decide)).2.1⟩

/-- A destroyed trip actor processes no further messages and emits no
effects, whatever is delivered. -/
theorem run_dead (t : Trip) :
    ∀ msgs : List TripMsg,
      (TripActor.mk t false).run msgs = (TripActor.mk t false, []) :=
  fun msgs => by
    induction msgs with
    | nil => rfl
    | cons m ms ih => simp [TripActor.run, TripActor.step, ih]

/-- `location_resolved` never emits a listener notification or a failure
diagnostic itself; those come only from `finish`. -/
theorem location_resolved_no_termination_effects (t : Trip) (r : Nat)
    (loc : Option PreciseLocation) (i : Nat) (t2 : Trip) (effs : List Effect)
    (h : t.location_resolved r loc i = some (t2, effs)) :
    effs.countP Effect.is_trip_result = 0 ∧ effs.countP Effect.is_diag = 0 := by
  cases loc with
  | none =>
    simp only [Trip.location_resolved, Option.some.injEq, Prod.mk.injEq] at h
    obtain ⟨h1, h2⟩ := h
    subst h2
    simp [List.countP, List.countP.go, Effect.is_trip_result, Effect.is_diag]
  | some p =>
    obtain ⟨hid, heffs | heffs⟩ := location_resolved_some_inv t r p i t2 effs h <;>
      subst heffs <;>
      cases hs : t2.source <;> cases hd : t2.destination <;>
        simp [Trip.insertion_effects, hs, hd, List.countP, List.countP.go,
          Effect.is_trip_result, Effect.is_diag]

/-- `finish` emits at most one listener notification and at most one failure
diagnostic. -/
theorem finish_termination_counts (t : Trip) (res : TripResult) :
    (t.finish res).1.countP Effect.is_trip_result ≤ 1 ∧
    (t.finish res).1.countP Effect.is_diag ≤ 1 := by
  by_cases hf : res.fate.is_failure <;> cases hl : t.listener <;>
    simp [Trip.finish, DEBUG_FAILED_TRIPS_VISUALLY, hf, hl, List.countP,
      List.countP.go, Effect.is_trip_result, Effect.is_diag]

/-- One delivery step emits at most one listener notification and at most
one diagnostic, and if it emits either then the actor is destroyed by that
step. -/
theorem step_termination_counts (a : TripActor) (m : TripMsg) :
    ((a.step m).2.countP Effect.is_trip_result ≤ 1 ∧
      (1 ≤ (a.step m).2.countP Effect.is_trip_result →
        (a.step m).1.alive = false)) ∧
    ((a.step m).2.countP Effect.is_diag ≤ 1 ∧
      (1 ≤ (a.step m).2.countP Effect.is_diag →
        (a.step m).1.alive = false)) := by
  cases ha : a.alive with
  | false => simp [TripActor.step, ha]
  | true =>
    cases m with
    | location_resolved r loc i =>
      cases hres : a.state.location_resolved r loc i with
      | none => simp [TripActor.step, ha, hres]
      | some pr =>
        obtain ⟨hc1, hc2⟩ := location_resolved_no_termination_effects
          a.state r loc i pr.1 pr.2 (by rw [hres])
        simp [TripActor.step, ha, hres, hc1, hc2]
    | finish res =>
      obtain ⟨hc1, hc2⟩ := finish_termination_counts a.state res
      refine ⟨⟨?_, fun _ => ?_⟩, ⟨?_, fun _ => ?_⟩⟩
      · simpa [TripActor.step, ha] using hc1
      · simp [TripActor.step, ha, Trip.finish]
      · simpa [TripActor.step, ha] using hc2
      · simp [TripActor.step, ha, Trip.finish]

/-- Over a whole run, a predicate that each step emits at most once, and
whose emission destroys the actor, is observed at most once. -/
theorem run_count_le (p : Effect → Bool)
    (hstep : ∀ (b : TripActor) (m : TripMsg),
      (b.step m).2.countP p ≤ 1 ∧
      (1 ≤ (b.step m).2.countP p → (b.step m).1.alive = false)) :
    ∀ (msgs : List TripMsg) (a : TripActor), (a.run msgs).2.countP p ≤ 1 := by
  intro msgs
  induction msgs with
  | nil => intro a; simp [TripActor.run]
  | cons m ms ih =>
    intro a
    obtain ⟨h1, h2⟩ := hstep a m
    by_cases hz : (a.step m).2.countP p = 0
    · simpa [TripActor.run, List.countP_append, hz] using ih (a.step m).1
    · have halive : (a.step m).1.alive = false := h2 (by omega)
      have hdead : ((a.step m).1.run ms).2 = [] := by
        have h3 : (a.step m).1 = TripActor.mk (a.step m).1.state false := by
          rw [← halive]
        rw [h3, run_dead]
      simp [TripActor.run, List.countP_append, hdead]
      omega

/-- C3: over any sequence of delivered messages, a trip actor's listener
receives at most one `trip_result` and at most one failure diagnostic is
emitted — `finish` always returns `Fate::Die`, so the first termination
destroys the actor — and a destroyed actor processes no further messages and
emits nothing. -/
theorem at_most_one_termination (a : TripActor) (msgs : List TripMsg) :
    (a.run msgs).2.countP Effect.is_trip_result ≤ 1 ∧
    (a.run msgs).2.countP Effect.is_diag ≤ 1 ∧
    (TripActor.mk a.state false).run msgs = (TripActor.mk a.state false, []) :=
  ⟨run_count_le Effect.is_trip_result
      (fun b m => (step_termination_counts b m).1) msgs a,
   run_count_le Effect.is_diag
      (fun b m => (step_termination_counts b m).2) msgs a,
   run_dead a.state msgs⟩
